import Mathlib

/-!
Verification of the ibm-watson token-acquisition core:
the IAM authenticator (`src/auth/mod.rs`) and the per-operation
error taxonomies for the voice endpoints
(`src/text-to-speech/voices/errors.rs`).

The embedding models JSON values as an inductive type, the serde-derived
deserialization of `TokenResponse` as an explicit field-slot fold, and
`IamAuthenticator::new` as a function from an HTTP outcome to
`Option (Except AuthenticationError IamAuthenticator)`, where `none`
stands for a process abort (the `unwrap` on a malformed 200 body and the
`unreachable!()` arm on an unexpected status).
-/

/-- A parsed JSON value. Numbers are modelled as integers, which covers
every value the i64 fields of `TokenResponse` can accept. -/
inductive Json where
  | null : Json
  | bool (b : Bool) : Json
  | num (n : Int) : Json
  | str (s : String) : Json
  | arr (xs : List Json) : Json
  | obj (fields : List (String × Json)) : Json

/-- The `TokenResponse` struct of `src/auth/mod.rs` (lines 11-26): the
fields of an issued IAM token grant. Rust's `i64` fields are embedded as
`Int`; the deserializer enforces the i64 range. -/
structure TokenResponse where
  access_token : String
  refresh_token : String
  delegated_refresh_token : Option String
  token_type : String
  expires_in : Int
  expiration : Int
  scope : Option String
deriving DecidableEq

/-- Accessor `TokenResponse::access_token` (returns `&self.access_token`). -/
def TokenResponse.getAccessToken (t : TokenResponse) : String :=
  t.access_token

/-- Accessor `TokenResponse::refresh_token`. -/
def TokenResponse.getRefreshToken (t : TokenResponse) : String :=
  t.refresh_token

/-- Accessor `TokenResponse::token_type`. -/
def TokenResponse.getTokenType (t : TokenResponse) : String :=
  t.token_type

/-- Accessor `TokenResponse::expires_in`. -/
def TokenResponse.getExpiresIn (t : TokenResponse) : Int :=
  t.expires_in

/-- Accessor `TokenResponse::expiration`. -/
def TokenResponse.getExpiration (t : TokenResponse) : Int :=
  t.expiration

/-- Accessor `TokenResponse::scope` (returns `self.scope.as_ref()`). -/
def TokenResponse.getScope (t : TokenResponse) : Option String :=
  t.scope

/-- Accessor `TokenResponse::delegated_refresh_token`. -/
def TokenResponse.getDelegatedRefreshToken (t : TokenResponse) : Option String :=
  t.delegated_refresh_token

/-- The smallest i64 value, as an integer. -/
def i64Min : Int := -(2 ^ 63)

/-- One more than the largest i64 value, as an integer. -/
def i64Cap : Int := 2 ^ 63

/-- A JSON number is accepted for a Rust `i64` field exactly when it is an
integer in the i64 range (serde rejects floats and out-of-range values). -/
def fitsI64 (n : Int) : Bool :=
  decide (i64Min ≤ n) && decide (n < i64Cap)

/-- Partially filled fields during map-based struct deserialization, one
slot per `TokenResponse` field, mirroring the serde-derived visitor's
`Option` locals. For the two `Option<String>` fields the outer `Option`
records whether the key was seen at all. -/
structure Slots where
  access_token : Option String
  refresh_token : Option String
  delegated_refresh_token : Option (Option String)
  token_type : Option String
  expires_in : Option Int
  expiration : Option Int
  scope : Option (Option String)
deriving DecidableEq

/-- The all-empty initial slot state of the serde visitor. -/
def initSlots : Slots :=
  ⟨none, none, none, none, none, none, none⟩

/-- Processing one `key: value` entry of a JSON object, as the serde-derived
`visit_map` does: a known key must not have been seen before (duplicate
field error), its value must have the field's type, and an unknown key is
ignored. `none` is a deserialization error. -/
def setField (s : Slots) (k : String) (v : Json) : Option Slots :=
  if k = "access_token" then
    match s.access_token, v with
    | none, Json.str x => some { s with access_token := some x }
    | _, _ => none
  else if k = "refresh_token" then
    match s.refresh_token, v with
    | none, Json.str x => some { s with refresh_token := some x }
    | _, _ => none
  else if k = "delegated_refresh_token" then
    match s.delegated_refresh_token, v with
    | none, Json.str x => some { s with delegated_refresh_token := some (some x) }
    | none, Json.null => some { s with delegated_refresh_token := some none }
    | _, _ => none
  else if k = "token_type" then
    match s.token_type, v with
    | none, Json.str x => some { s with token_type := some x }
    | _, _ => none
  else if k = "expires_in" then
    match s.expires_in, v with
    | none, Json.num n => if fitsI64 n then some { s with expires_in := some n } else none
    | _, _ => none
  else if k = "expiration" then
    match s.expiration, v with
    | none, Json.num n => if fitsI64 n then some { s with expiration := some n } else none
    | _, _ => none
  else if k = "scope" then
    match s.scope, v with
    | none, Json.str x => some { s with scope := some (some x) }
    | none, Json.null => some { s with scope := some none }
    | _, _ => none
  else
    some s

/-- Folding `setField` over the entries of a JSON object, in order. -/
def foldSet : List (String × Json) → Slots → Option Slots
  | [], s => some s
  | (k, v) :: rest, s =>
    match setField s k v with
    | none => none
    | some s1 => foldSet rest s1

/-- Finishing the serde visitor: every required field must have been seen
(`missing field` error otherwise); an unseen `Option` field becomes `none`. -/
def finishSlots (s : Slots) : Option TokenResponse :=
  match s.access_token, s.refresh_token, s.token_type, s.expires_in, s.expiration with
  | some a, some r, some t, some ei, some ex =>
    some ⟨a, r, s.delegated_refresh_token.getD none, t, ei, ex, s.scope.getD none⟩
  | _, _, _, _, _ => none

/-- One element of a JSON-array (serde `visit_seq`) encoding of
`TokenResponse`, for an `Option<String>` field: a string or null. -/
def optStringElem : Json → Option (Option String)
  | Json.str x => some (some x)
  | Json.null => some none
  | _ => none

/-- Deserializing `TokenResponse` from a JSON array, as the serde-derived
`visit_seq` does: exactly seven elements, in field declaration order. -/
def seqTokenResponse : List Json → Option TokenResponse
  | [Json.str a, Json.str r, d, Json.str t, Json.num ei, Json.num ex, sc] =>
    match optStringElem d, optStringElem sc with
    | some d1, some sc1 =>
      if fitsI64 ei && fitsI64 ex then some ⟨a, r, d1, t, ei, ex, sc1⟩ else none
    | _, _ => none
  | _ => none

/-- The serde-derived `Deserialize` for `TokenResponse`
(`src/auth/mod.rs` lines 11-26, field renames applied): a JSON object is
visited entry by entry, a JSON array positionally; every other JSON value
is a type error. `none` is a deserialization error, which
`IamAuthenticator::new` turns into a panic via `unwrap`. -/
def deserializeTokenResponse : Json → Option TokenResponse
  | Json.obj fs =>
    match foldSet fs initSlots with
    | some s => finishSlots s
    | none => none
  | Json.arr xs => seqTokenResponse xs
  | _ => none

/-- Modelled from the spec: the `AuthenticationError` enum is declared in
`src/auth/errors.rs`, which is not part of the provided sources; the
variants are those the spec names and `src/auth/mod.rs` constructs: a
connection failure carrying the transport error's description, and the
400 parameter-validation failure. -/
inductive AuthenticationError where
  | ConnectionError (desc : String) : AuthenticationError
  | ParameterValidationFailed : AuthenticationError
deriving DecidableEq

/-- The `IamAuthenticator` struct: holds the one `TokenResponse` produced
by a successful exchange. -/
structure IamAuthenticator where
  access_token : TokenResponse
deriving DecidableEq

/-- Accessor `IamAuthenticator::token_response` (returns `&self.access_token`). -/
def IamAuthenticator.tokenResponse (a : IamAuthenticator) : TokenResponse :=
  a.access_token

/-- The fixed identity endpoint `AUTH_URL` of `src/auth/mod.rs` line 10. -/
def AUTH_URL : String := "https://iam.cloud.ibm.com/identity/token"

/-- The observable parts of the HTTP request `IamAuthenticator::new`
builds: method, target URL, the one header it sets, and the body text. -/
structure HttpRequest where
  method : String
  url : String
  contentType : String
  body : String
deriving DecidableEq

/-- Request construction of `IamAuthenticator::new`
(`src/auth/mod.rs` lines 80-97): a POST to `AUTH_URL` with a form-encoded
content type and the grant body produced by `format!`, the API key
concatenated verbatim with no escaping. -/
def buildAuthRequest (apiKey : String) : HttpRequest :=
  ⟨"POST", AUTH_URL, "application/x-www-form-urlencoded",
    "grant_type=urn:ibm:params:oauth:grant-type:apikey&apikey=" ++ apiKey⟩

/-- The outcome of executing the token request: either a transport failure
before any status was obtained, carrying the error's rendered description
(`e.to_string()`), or a response with a status code and a body. The body is
modelled as a parsed JSON value; a body that does not deserialize to
`TokenResponse` is a malformed body. -/
inductive HttpOutcome where
  | transportFailure (desc : String) : HttpOutcome
  | response (status : Nat) (body : Json) : HttpOutcome

/-- Result handling of `IamAuthenticator::new`
(`src/auth/mod.rs` lines 98-110). A transport error maps to
`ConnectionError` with the error's description; status 200 deserializes
the body and `unwrap`s the result (panic on failure, modelled as `none`);
status 400 maps to `ParameterValidationFailed`; every other status hits
`unreachable!()` (panic, modelled as `none`). -/
def iamAuthenticatorNew : HttpOutcome → Option (Except AuthenticationError IamAuthenticator)
  | HttpOutcome.transportFailure desc =>
    some (Except.error (AuthenticationError.ConnectionError desc))
  | HttpOutcome.response status body =>
    if status = 200 then
      match deserializeTokenResponse body with
      | some tr => some (Except.ok ⟨tr⟩)
      | none => none
    else if status = 400 then
      some (Except.error AuthenticationError.ParameterValidationFailed)
    else none

/-- The `ListVoicesError` enum of `src/text-to-speech/voices/errors.rs`
(lines 7-23): the closed error taxonomy of the list-voices operation. -/
inductive ListVoicesError where
  | NotAcceptable406 : ListVoicesError
  | UnsupportedMediaType415 : ListVoicesError
  | InternalServerError500 : ListVoicesError
  | ServiceUnavailable503 : ListVoicesError
  | ConnectionError (e : String) : ListVoicesError
deriving DecidableEq

/-- The rendered `Display` message of each `ListVoicesError` variant, from
the `#[error(...)]` attributes. -/
def ListVoicesError.message : ListVoicesError → String
  | ListVoicesError.NotAcceptable406 =>
    "The request specified an Accept header with an incompatible content type."
  | ListVoicesError.UnsupportedMediaType415 =>
    "The request specified an unacceptable media type."
  | ListVoicesError.InternalServerError500 =>
    "The service experienced an internal error."
  | ListVoicesError.ServiceUnavailable503 =>
    "The service is currently unavailable."
  | ListVoicesError.ConnectionError e => e

/-- The `GetVoiceError` enum of `src/text-to-speech/voices/errors.rs`
(lines 25-54): the closed error taxonomy of the get-voice operation. -/
inductive GetVoiceError where
  | NotModified304 : GetVoiceError
  | BadRequest400 : GetVoiceError
  | Unauthorised401 (id : String) : GetVoiceError
  | NotAcceptable406 : GetVoiceError
  | UnsupportedMediaType415 : GetVoiceError
  | InternalServerError500 : GetVoiceError
  | ServiceUnavailable503 : GetVoiceError
  | ConnectionError (e : String) : GetVoiceError
deriving DecidableEq

/-- The rendered `Display` message of each `GetVoiceError` variant, from
the `#[error(...)]` attributes; the 401 message interpolates the
customisation id payload. -/
def GetVoiceError.message : GetVoiceError → String
  | GetVoiceError.NotModified304 =>
    "The requested resource has not been modified since the time specified by the If-Modified-Since header, as documented in the HTTP specification"
  | GetVoiceError.BadRequest400 =>
    "A required input parameter is null or a specified input parameter or header value is invalid or not supported. Please check your customisation id"
  | GetVoiceError.Unauthorised401 id =>
    "The specified customisation_id " ++ id ++ " is invalid for the requesting credentials"
  | GetVoiceError.NotAcceptable406 =>
    "The request specified an Accept header with an incompatible content type."
  | GetVoiceError.UnsupportedMediaType415 =>
    "The request specified an unacceptable media type."
  | GetVoiceError.InternalServerError500 =>
    "The service experienced an internal error."
  | GetVoiceError.ServiceUnavailable503 =>
    "The service is currently unavailable."
  | GetVoiceError.ConnectionError e => e

/-- The input to a per-operation response classifier: an HTTP status code,
or, for a connection failure, the transport error's description. -/
inductive ClassifierInput where
  | status (code : Nat) : ClassifierInput
  | transport (desc : String) : ClassifierInput
deriving DecidableEq

/-- Modelled from the spec: the list-voices classifier (its call site is
not part of the provided sources; the status of each variant is fixed by
the variant names and per-variant comments of `ListVoicesError`). Maps
406, 415, 500 and 503 to the corresponding variant, a transport failure to
`ConnectionError`, and is undefined (`none`) on any other status. -/
def listVoicesClassify : ClassifierInput → Option ListVoicesError
  | ClassifierInput.status 406 => some ListVoicesError.NotAcceptable406
  | ClassifierInput.status 415 => some ListVoicesError.UnsupportedMediaType415
  | ClassifierInput.status 500 => some ListVoicesError.InternalServerError500
  | ClassifierInput.status 503 => some ListVoicesError.ServiceUnavailable503
  | ClassifierInput.status _ => none
  | ClassifierInput.transport desc => some (ListVoicesError.ConnectionError desc)

/-- Modelled from the spec: the get-voice classifier (its call site is not
part of the provided sources; the status of each variant is fixed by the
variant names and per-variant comments of `GetVoiceError`). The
customisation id of the request is the contextual payload of the 401
variant. Undefined (`none`) on any unmapped status. -/
def getVoiceClassify (customizationId : String) : ClassifierInput → Option GetVoiceError
  | ClassifierInput.status 304 => some GetVoiceError.NotModified304
  | ClassifierInput.status 400 => some GetVoiceError.BadRequest400
  | ClassifierInput.status 401 => some (GetVoiceError.Unauthorised401 customizationId)
  | ClassifierInput.status 406 => some GetVoiceError.NotAcceptable406
  | ClassifierInput.status 415 => some GetVoiceError.UnsupportedMediaType415
  | ClassifierInput.status 500 => some GetVoiceError.InternalServerError500
  | ClassifierInput.status 503 => some GetVoiceError.ServiceUnavailable503
  | ClassifierInput.status _ => none
  | ClassifierInput.transport desc => some (GetVoiceError.ConnectionError desc)

/-- First occurrence of a key in a JSON object's entry list; what a reader
of the input JSON sees as the field's value. -/
def lookupField : List (String × Json) → String → Option Json
  | [], _ => none
  | (k, v) :: rest, key => if k = key then some v else lookupField rest key

/-! Helper lemmas about a single `setField` step: a step on a key other
than a given field leaves that field's slot unchanged, and a step on the
field's own key requires the slot to be unset and a value of the field's
type. -/

lemma setField_preserve_access (s s1 : Slots) (k : String) (v : Json)
    (hk : k ≠ "access_token") (h : setField s k v = some s1) :
    s1.access_token = s.access_token := by
  unfold setField at h
  repeat' split at h
  all_goals (try (injection h with h))
  all_goals (try (subst h))
  all_goals simp_all

lemma setField_preserve_refresh (s s1 : Slots) (k : String) (v : Json)
    (hk : k ≠ "refresh_token") (h : setField s k v = some s1) :
    s1.refresh_token = s.refresh_token := by
  unfold setField at h
  repeat' split at h
  all_goals (try (injection h with h))
  all_goals (try (subst h))
  all_goals simp_all

lemma setField_preserve_delegated (s s1 : Slots) (k : String) (v : Json)
    (hk : k ≠ "delegated_refresh_token") (h : setField s k v = some s1) :
    s1.delegated_refresh_token = s.delegated_refresh_token := by
  unfold setField at h
  repeat' split at h
  all_goals (try (injection h with h))
  all_goals (try (subst h))
  all_goals simp_all

lemma setField_preserve_tokenType (s s1 : Slots) (k : String) (v : Json)
    (hk : k ≠ "token_type") (h : setField s k v = some s1) :
    s1.token_type = s.token_type := by
  unfold setField at h
  repeat' split at h
  all_goals (try (injection h with h))
  all_goals (try (subst h))
  all_goals simp_all

lemma setField_preserve_expiresIn (s s1 : Slots) (k : String) (v : Json)
    (hk : k ≠ "expires_in") (h : setField s k v = some s1) :
    s1.expires_in = s.expires_in := by
  unfold setField at h
  repeat' split at h
  all_goals (try (injection h with h))
  all_goals (try (subst h))
  all_goals simp_all

lemma setField_preserve_expiration (s s1 : Slots) (k : String) (v : Json)
    (hk : k ≠ "expiration") (h : setField s k v = some s1) :
    s1.expiration = s.expiration := by
  unfold setField at h
  repeat' split at h
  all_goals (try (injection h with h))
  all_goals (try (subst h))
  all_goals simp_all

lemma setField_preserve_scopeField (s s1 : Slots) (k : String) (v : Json)
    (hk : k ≠ "scope") (h : setField s k v = some s1) :
    s1.scope = s.scope := by
  unfold setField at h
  repeat' split at h
  all_goals (try (injection h with h))
  all_goals (try (subst h))
  all_goals simp_all

lemma setField_hit_access (s s1 : Slots) (v : Json)
    (h : setField s "access_token" v = some s1) :
    s.access_token = none ∧ ∃ a, v = Json.str a ∧ s1.access_token = some a := by
  unfold setField at h
  repeat' split at h
  all_goals (try (injection h with h))
  all_goals (try (rw [← h]; clear h))
  all_goals simp_all

lemma setField_hit_refresh (s s1 : Slots) (v : Json)
    (h : setField s "refresh_token" v = some s1) :
    s.refresh_token = none ∧ ∃ a, v = Json.str a ∧ s1.refresh_token = some a := by
  unfold setField at h
  repeat' split at h
  all_goals (try (injection h with h))
  all_goals (try (rw [← h]; clear h))
  all_goals simp_all

lemma setField_hit_delegated (s s1 : Slots) (v : Json)
    (h : setField s "delegated_refresh_token" v = some s1) :
    s.delegated_refresh_token = none ∧
      ∃ a, ((∃ x, v = Json.str x ∧ a = some x) ∨ (v = Json.null ∧ a = none)) ∧
        s1.delegated_refresh_token = some a := by
  unfold setField at h
  repeat' split at h
  all_goals (try (injection h with h))
  all_goals (try (rw [← h]; clear h))
  all_goals simp_all

lemma setField_hit_tokenType (s s1 : Slots) (v : Json)
    (h : setField s "token_type" v = some s1) :
    s.token_type = none ∧ ∃ a, v = Json.str a ∧ s1.token_type = some a := by
  unfold setField at h
  repeat' split at h
  all_goals (try (injection h with h))
  all_goals (try (rw [← h]; clear h))
  all_goals simp_all

lemma setField_hit_expiresIn (s s1 : Slots) (v : Json)
    (h : setField s "expires_in" v = some s1) :
    s.expires_in = none ∧ ∃ n, (v = Json.num n ∧ fitsI64 n = true) ∧ s1.expires_in = some n := by
  unfold setField at h
  repeat' split at h
  all_goals (try (injection h with h))
  all_goals (try (rw [← h]; clear h))
  all_goals simp_all

lemma setField_hit_expiration (s s1 : Slots) (v : Json)
    (h : setField s "expiration" v = some s1) :
    s.expiration = none ∧ ∃ n, (v = Json.num n ∧ fitsI64 n = true) ∧ s1.expiration = some n := by
  unfold setField at h
  repeat' split at h
  all_goals (try (injection h with h))
  all_goals (try (rw [← h]; clear h))
  all_goals simp_all

lemma setField_hit_scopeField (s s1 : Slots) (v : Json)
    (h : setField s "scope" v = some s1) :
    s.scope = none ∧
      ∃ a, ((∃ x, v = Json.str x ∧ a = some x) ∨ (v = Json.null ∧ a = none)) ∧
        s1.scope = some a := by
  unfold setField at h
  repeat' split at h
  all_goals (try (injection h with h))
  all_goals (try (rw [← h]; clear h))
  all_goals simp_all

/-- Generic tracking of one slot through `foldSet`: either the key never
occurs in the entry list and the slot is unchanged, or its first
occurrence's value satisfies the field's typing relation `P`, the slot was
unset before the fold, and it holds exactly that value afterwards. -/
lemma foldSet_track {α : Type} (g : Slots → Option α) (key : String)
    (P : Json → α → Prop)
    (hne : ∀ s s1 k v, k ≠ key → setField s k v = some s1 → g s1 = g s)
    (hhit : ∀ s s1 v, setField s key v = some s1 →
      g s = none ∧ ∃ a, P v a ∧ g s1 = some a) :
    ∀ (fs : List (String × Json)) (s s' : Slots), foldSet fs s = some s' →
      (lookupField fs key = none ∧ g s' = g s) ∨
      (∃ v a, lookupField fs key = some v ∧ P v a ∧ g s = none ∧ g s' = some a) := by
  intro fs
  induction fs with
  | nil =>
    intro s s' h
    rw [foldSet] at h
    injection h with h
    subst h
    exact Or.inl ⟨rfl, rfl⟩
  | cons kv rest ih =>
    intro s s' h
    obtain ⟨k, v⟩ := kv
    rw [foldSet] at h
    cases hset : setField s k v with
    | none => rw [hset] at h; cases h
    | some s1 =>
      rw [hset] at h
      by_cases hk : k = key
      · subst hk
        obtain ⟨hnone, a, hP, hs1⟩ := hhit s s1 v hset
        rcases ih s1 s' h with ⟨_, hg⟩ | ⟨w, b, _, _, hnone1, _⟩
        · exact Or.inr ⟨v, a, by rw [lookupField, if_pos rfl], hP, hnone, by rw [hg, hs1]⟩
        · rw [hs1] at hnone1; cases hnone1
      · have hg1 : g s1 = g s := hne s s1 k v hk hset
        have hl : lookupField ((k, v) :: rest) key = lookupField rest key := by
          rw [lookupField, if_neg hk]
        rcases ih s1 s' h with ⟨hl2, hg⟩ | ⟨w, b, hl2, hP, hnone, hg⟩
        · exact Or.inl ⟨by rw [hl, hl2], by rw [hg, hg1]⟩
        · exact Or.inr ⟨w, b, by rw [hl, hl2], hP, by rw [← hg1, hnone], hg⟩

/-- Inversion of `finishSlots`: success forces every required slot to hold
exactly the produced record's field, and the optional slots to default to
`none` when unset. -/
lemma finishSlots_inv (s : Slots) (tr : TokenResponse)
    (h : finishSlots s = some tr) :
    s.access_token = some tr.access_token ∧
    s.refresh_token = some tr.refresh_token ∧
    s.token_type = some tr.token_type ∧
    s.expires_in = some tr.expires_in ∧
    s.expiration = some tr.expiration ∧
    s.delegated_refresh_token.getD none = tr.delegated_refresh_token ∧
    s.scope.getD none = tr.scope := by
  unfold finishSlots at h
  split at h
  · injection h with h
    rw [← h]
    simp_all
  · cases h

/-- Inversion of the object case of `deserializeTokenResponse`. -/
lemma deserialize_obj_inv (fs : List (String × Json)) (tr : TokenResponse)
    (h : deserializeTokenResponse (Json.obj fs) = some tr) :
    ∃ s, foldSet fs initSlots = some s ∧ finishSlots s = some tr := by
  simp only [deserializeTokenResponse] at h
  cases hf : foldSet fs initSlots with
  | none => rw [hf] at h; cases h
  | some s => rw [hf] at h; exact ⟨s, rfl, h⟩

/-! Per-field fidelity of the object deserializer: whenever it succeeds,
each field of the produced record is exactly the value the input object
supplied for the corresponding key (first occurrence; a successful run has
no duplicates). -/

lemma roundtrip_access (fs : List (String × Json)) (tr : TokenResponse)
    (h : deserializeTokenResponse (Json.obj fs) = some tr) :
    lookupField fs "access_token" = some (Json.str tr.access_token) := by
  obtain ⟨s, hf, hfin⟩ := deserialize_obj_inv fs tr h
  obtain ⟨hA, _, _, _, _, _, _⟩ := finishSlots_inv s tr hfin
  rcases foldSet_track (fun t => t.access_token) "access_token"
      (fun v a => v = Json.str a) (fun s s1 k v hk hs => setField_preserve_access s s1 k v hk hs)
      (fun s s1 v hs => setField_hit_access s s1 v hs) fs initSlots s hf with
    ⟨_, hg⟩ | ⟨v, a, hl, hP, _, hg⟩
  · rw [hA] at hg; simp [initSlots] at hg
  · rw [hA] at hg
    injection hg with hg
    rw [hl, hP, ← hg]

lemma roundtrip_refresh (fs : List (String × Json)) (tr : TokenResponse)
    (h : deserializeTokenResponse (Json.obj fs) = some tr) :
    lookupField fs "refresh_token" = some (Json.str tr.refresh_token) := by
  obtain ⟨s, hf, hfin⟩ := deserialize_obj_inv fs tr h
  obtain ⟨_, hR, _, _, _, _, _⟩ := finishSlots_inv s tr hfin
  rcases foldSet_track (fun t => t.refresh_token) "refresh_token"
      (fun v a => v = Json.str a) (fun s s1 k v hk hs => setField_preserve_refresh s s1 k v hk hs)
      (fun s s1 v hs => setField_hit_refresh s s1 v hs) fs initSlots s hf with
    ⟨_, hg⟩ | ⟨v, a, hl, hP, _, hg⟩
  · rw [hR] at hg; simp [initSlots] at hg
  · rw [hR] at hg
    injection hg with hg
    rw [hl, hP, ← hg]

lemma roundtrip_tokenType (fs : List (String × Json)) (tr : TokenResponse)
    (h : deserializeTokenResponse (Json.obj fs) = some tr) :
    lookupField fs "token_type" = some (Json.str tr.token_type) := by
  obtain ⟨s, hf, hfin⟩ := deserialize_obj_inv fs tr h
  obtain ⟨_, _, hT, _, _, _, _⟩ := finishSlots_inv s tr hfin
  rcases foldSet_track (fun t => t.token_type) "token_type"
      (fun v a => v = Json.str a) (fun s s1 k v hk hs => setField_preserve_tokenType s s1 k v hk hs)
      (fun s s1 v hs => setField_hit_tokenType s s1 v hs) fs initSlots s hf with
    ⟨_, hg⟩ | ⟨v, a, hl, hP, _, hg⟩
  · rw [hT] at hg; simp [initSlots] at hg
  · rw [hT] at hg
    injection hg with hg
    rw [hl, hP, ← hg]

lemma roundtrip_expiresIn (fs : List (String × Json)) (tr : TokenResponse)
    (h : deserializeTokenResponse (Json.obj fs) = some tr) :
    lookupField fs "expires_in" = some (Json.num tr.expires_in) := by
  obtain ⟨s, hf, hfin⟩ := deserialize_obj_inv fs tr h
  obtain ⟨_, _, _, hE, _, _, _⟩ := finishSlots_inv s tr hfin
  rcases foldSet_track (fun t => t.expires_in) "expires_in"
      (fun v n => v = Json.num n ∧ fitsI64 n = true)
      (fun s s1 k v hk hs => setField_preserve_expiresIn s s1 k v hk hs)
      (fun s s1 v hs => setField_hit_expiresIn s s1 v hs) fs initSlots s hf with
    ⟨_, hg⟩ | ⟨v, n, hl, hP, _, hg⟩
  · rw [hE] at hg; simp [initSlots] at hg
  · rw [hE] at hg
    injection hg with hg
    rw [hl, hP.1, ← hg]

lemma roundtrip_expiration (fs : List (String × Json)) (tr : TokenResponse)
    (h : deserializeTokenResponse (Json.obj fs) = some tr) :
    lookupField fs "expiration" = some (Json.num tr.expiration) := by
  obtain ⟨s, hf, hfin⟩ := deserialize_obj_inv fs tr h
  obtain ⟨_, _, _, _, hX, _, _⟩ := finishSlots_inv s tr hfin
  rcases foldSet_track (fun t => t.expiration) "expiration"
      (fun v n => v = Json.num n ∧ fitsI64 n = true)
      (fun s s1 k v hk hs => setField_preserve_expiration s s1 k v hk hs)
      (fun s s1 v hs => setField_hit_expiration s s1 v hs) fs initSlots s hf with
    ⟨_, hg⟩ | ⟨v, n, hl, hP, _, hg⟩
  · rw [hX] at hg; simp [initSlots] at hg
  · rw [hX] at hg
    injection hg with hg
    rw [hl, hP.1, ← hg]

lemma roundtrip_delegated (fs : List (String × Json)) (tr : TokenResponse)
    (h : deserializeTokenResponse (Json.obj fs) = some tr) :
    lookupField fs "delegated_refresh_token" =
        Option.map Json.str tr.delegated_refresh_token ∨
      (lookupField fs "delegated_refresh_token" = some Json.null ∧
        tr.delegated_refresh_token = none) := by
  obtain ⟨s, hf, hfin⟩ := deserialize_obj_inv fs tr h
  obtain ⟨_, _, _, _, _, hD, _⟩ := finishSlots_inv s tr hfin
  rcases foldSet_track (fun t => t.delegated_refresh_token) "delegated_refresh_token"
      (fun v a => (∃ x, v = Json.str x ∧ a = some x) ∨ (v = Json.null ∧ a = none))
      (fun s s1 k v hk hs => setField_preserve_delegated s s1 k v hk hs)
      (fun s s1 v hs => setField_hit_delegated s s1 v hs) fs initSlots s hf with
    ⟨hl, hg⟩ | ⟨v, a, hl, hP, _, hg⟩
  · left
    rw [hg] at hD
    simp only [initSlots] at hD
    rw [hl, ← hD]
    rfl
  · rw [hg] at hD
    simp only [Option.getD] at hD
    rcases hP with ⟨x, hv, hax⟩ | ⟨hv, hax⟩
    · left
      rw [hl, hv, ← hD, hax]
      rfl
    · right
      rw [hl, hv, ← hD, hax]
      exact ⟨rfl, rfl⟩

lemma roundtrip_scopeField (fs : List (String × Json)) (tr : TokenResponse)
    (h : deserializeTokenResponse (Json.obj fs) = some tr) :
    lookupField fs "scope" = Option.map Json.str tr.scope ∨
      (lookupField fs "scope" = some Json.null ∧ tr.scope = none) := by
  obtain ⟨s, hf, hfin⟩ := deserialize_obj_inv fs tr h
  obtain ⟨_, _, _, _, _, _, hS⟩ := finishSlots_inv s tr hfin
  rcases foldSet_track (fun t => t.scope) "scope"
      (fun v a => (∃ x, v = Json.str x ∧ a = some x) ∨ (v = Json.null ∧ a = none))
      (fun s s1 k v hk hs => setField_preserve_scopeField s s1 k v hk hs)
      (fun s s1 v hs => setField_hit_scopeField s s1 v hs) fs initSlots s hf with
    ⟨hl, hg⟩ | ⟨v, a, hl, hP, _, hg⟩
  · left
    rw [hg] at hS
    simp only [initSlots] at hS
    rw [hl, ← hS]
    rfl
  · rw [hg] at hS
    simp only [Option.getD] at hS
    rcases hP with ⟨x, hv, hax⟩ | ⟨hv, hax⟩
    · left
      rw [hl, hv, ← hS, hax]
      rfl
    · right
      rw [hl, hv, ← hS, hax]
      exact ⟨rfl, rfl⟩

/-- Claim C1: a 200 response whose well-formed JSON object body
deserializes to a token record makes `IamAuthenticator::new` succeed with
exactly that record; every field of the record is the value the input JSON
supplied verbatim for the corresponding key, and each read-only accessor
returns exactly the stored field. -/
theorem token_roundtrip_200 (fs : List (String × Json)) (tr : TokenResponse)
    (h : deserializeTokenResponse (Json.obj fs) = some tr) :
    iamAuthenticatorNew (HttpOutcome.response 200 (Json.obj fs)) =
      some (Except.ok ⟨tr⟩) ∧
    lookupField fs "access_token" = some (Json.str tr.access_token) ∧
    lookupField fs "refresh_token" = some (Json.str tr.refresh_token) ∧
    lookupField fs "token_type" = some (Json.str tr.token_type) ∧
    lookupField fs "expires_in" = some (Json.num tr.expires_in) ∧
    lookupField fs "expiration" = some (Json.num tr.expiration) ∧
    (lookupField fs "delegated_refresh_token" =
        Option.map Json.str tr.delegated_refresh_token ∨
      (lookupField fs "delegated_refresh_token" = some Json.null ∧
        tr.delegated_refresh_token = none)) ∧
    (lookupField fs "scope" = Option.map Json.str tr.scope ∨
      (lookupField fs "scope" = some Json.null ∧ tr.scope = none)) ∧
    (IamAuthenticator.mk tr).tokenResponse = tr ∧
    tr.getAccessToken = tr.access_token ∧
    tr.getRefreshToken = tr.refresh_token ∧
    tr.getTokenType = tr.token_type ∧
    tr.getExpiresIn = tr.expires_in ∧
    tr.getExpiration = tr.expiration ∧
    tr.getScope = tr.scope ∧
    tr.getDelegatedRefreshToken = tr.delegated_refresh_token := by
  refine ⟨?_, roundtrip_access fs tr h, roundtrip_refresh fs tr h,
    roundtrip_tokenType fs tr h, roundtrip_expiresIn fs tr h,
    roundtrip_expiration fs tr h, roundtrip_delegated fs tr h,
    roundtrip_scopeField fs tr h, rfl, rfl, rfl, rfl, rfl, rfl, rfl, rfl⟩
  simp [iamAuthenticatorNew, h]

/-- Witness for claim C1 at a concrete body holding all seven fields. -/
theorem token_roundtrip_200_witness :
    deserializeTokenResponse (Json.obj [("access_token", Json.str "tok"),
        ("refresh_token", Json.str "ref"),
        ("delegated_refresh_token", Json.str "del"),
        ("token_type", Json.str "Bearer"), ("expires_in", Json.num 3600),
        ("expiration", Json.num 1700003600), ("scope", Json.null)]) =
      some ⟨"tok", "ref", some "del", "Bearer", 3600, 1700003600, none⟩ ∧
    (iamAuthenticatorNew (HttpOutcome.response 200 (Json.obj
        [("access_token", Json.str "tok"), ("refresh_token", Json.str "ref"),
         ("delegated_refresh_token", Json.str "del"),
         ("token_type", Json.str "Bearer"), ("expires_in", Json.num 3600),
         ("expiration", Json.num 1700003600), ("scope", Json.null)])) =
        some (Except.ok ⟨⟨"tok", "ref", some "del", "Bearer", 3600, 1700003600, none⟩⟩) ∧
      lookupField [("access_token", Json.str "tok"), ("refresh_token", Json.str "ref"),
          ("delegated_refresh_token", Json.str "del"), ("token_type", Json.str "Bearer"),
          ("expires_in", Json.num 3600), ("expiration", Json.num 1700003600),
          ("scope", Json.null)] "access_token" =
        some (Json.str (TokenResponse.mk "tok" "ref" (some "del") "Bearer" 3600 1700003600 none).access_token) ∧
      lookupField [("access_token", Json.str "tok"), ("refresh_token", Json.str "ref"),
          ("delegated_refresh_token", Json.str "del"), ("token_type", Json.str "Bearer"),
          ("expires_in", Json.num 3600), ("expiration", Json.num 1700003600),
          ("scope", Json.null)] "refresh_token" =
        some (Json.str (TokenResponse.mk "tok" "ref" (some "del") "Bearer" 3600 1700003600 none).refresh_token) ∧
      lookupField [("access_token", Json.str "tok"), ("refresh_token", Json.str "ref"),
          ("delegated_refresh_token", Json.str "del"), ("token_type", Json.str "Bearer"),
          ("expires_in", Json.num 3600), ("expiration", Json.num 1700003600),
          ("scope", Json.null)] "token_type" =
        some (Json.str (TokenResponse.mk "tok" "ref" (some "del") "Bearer" 3600 1700003600 none).token_type) ∧
      lookupField [("access_token", Json.str "tok"), ("refresh_token", Json.str "ref"),
          ("delegated_refresh_token", Json.str "del"), ("token_type", Json.str "Bearer"),
          ("expires_in", Json.num 3600), ("expiration", Json.num 1700003600),
          ("scope", Json.null)] "expires_in" =
        some (Json.num (TokenResponse.mk "tok" "ref" (some "del") "Bearer" 3600 1700003600 none).expires_in) ∧
      lookupField [("access_token", Json.str "tok"), ("refresh_token", Json.str "ref"),
          ("delegated_refresh_token", Json.str "del"), ("token_type", Json.str "Bearer"),
          ("expires_in", Json.num 3600), ("expiration", Json.num 1700003600),
          ("scope", Json.null)] "expiration" =
        some (Json.num (TokenResponse.mk "tok" "ref" (some "del") "Bearer" 3600 1700003600 none).expiration) ∧
      (lookupField [("access_token", Json.str "tok"), ("refresh_token", Json.str "ref"),
          ("delegated_refresh_token", Json.str "del"), ("token_type", Json.str "Bearer"),
          ("expires_in", Json.num 3600), ("expiration", Json.num 1700003600),
          ("scope", Json.null)] "delegated_refresh_token" =
          Option.map Json.str (TokenResponse.mk "tok" "ref" (some "del") "Bearer" 3600 1700003600 none).delegated_refresh_token ∨
        (lookupField [("access_token", Json.str "tok"), ("refresh_token", Json.str "ref"),
            ("delegated_refresh_token", Json.str "del"), ("token_type", Json.str "Bearer"),
            ("expires_in", Json.num 3600), ("expiration", Json.num 1700003600),
            ("scope", Json.null)] "delegated_refresh_token" = some Json.null ∧
          (TokenResponse.mk "tok" "ref" (some "del") "Bearer" 3600 1700003600 none).delegated_refresh_token = none)) ∧
      (lookupField [("access_token", Json.str "tok"), ("refresh_token", Json.str "ref"),
          ("delegated_refresh_token", Json.str "del"), ("token_type", Json.str "Bearer"),
          ("expires_in", Json.num 3600), ("expiration", Json.num 1700003600),
          ("scope", Json.null)] "scope" =
          Option.map Json.str (TokenResponse.mk "tok" "ref" (some "del") "Bearer" 3600 1700003600 none).scope ∨
        (lookupField [("access_token", Json.str "tok"), ("refresh_token", Json.str "ref"),
            ("delegated_refresh_token", Json.str "del"), ("token_type", Json.str "Bearer"),
            ("expires_in", Json.num 3600), ("expiration", Json.num 1700003600),
            ("scope", Json.null)] "scope" = some Json.null ∧
          (TokenResponse.mk "tok" "ref" (some "del") "Bearer" 3600 1700003600 none).scope = none)) ∧
      (IamAuthenticator.mk (TokenResponse.mk "tok" "ref" (some "del") "Bearer" 3600 1700003600 none)).tokenResponse =
        TokenResponse.mk "tok" "ref" (some "del") "Bearer" 3600 1700003600 none ∧
      (TokenResponse.mk "tok" "ref" (some "del") "Bearer" 3600 1700003600 none).getAccessToken =
        (TokenResponse.mk "tok" "ref" (some "del") "Bearer" 3600 1700003600 none).access_token ∧
      (TokenResponse.mk "tok" "ref" (some "del") "Bearer" 3600 1700003600 none).getRefreshToken =
        (TokenResponse.mk "tok" "ref" (some "del") "Bearer" 3600 1700003600 none).refresh_token ∧
      (TokenResponse.mk "tok" "ref" (some "del") "Bearer" 3600 1700003600 none).getTokenType =
        (TokenResponse.mk "tok" "ref" (some "del") "Bearer" 3600 1700003600 none).token_type ∧
      (TokenResponse.mk "tok" "ref" (some "del") "Bearer" 3600 1700003600 none).getExpiresIn =
        (TokenResponse.mk "tok" "ref" (some "del") "Bearer" 3600 1700003600 none).expires_in ∧
      (TokenResponse.mk "tok" "ref" (some "del") "Bearer" 3600 1700003600 none).getExpiration =
        (TokenResponse.mk "tok" "ref" (some "del") "Bearer" 3600 1700003600 none).expiration ∧
      (TokenResponse.mk "tok" "ref" (some "del") "Bearer" 3600 1700003600 none).getScope =
        (TokenResponse.mk "tok" "ref" (some "del") "Bearer" 3600 1700003600 none).scope ∧
      (TokenResponse.mk "tok" "ref" (some "del") "Bearer" 3600 1700003600 none).getDelegatedRefreshToken =
        (TokenResponse.mk "tok" "ref" (some "del") "Bearer" 3600 1700003600 none).delegated_refresh_token) :=
  ⟨by rfl,
   token_roundtrip_200
     [("access_token", Json.str "tok"), ("refresh_token", Json.str "ref"),
      ("delegated_refresh_token", Json.str "del"), ("token_type", Json.str "Bearer"),
      ("expires_in", Json.num 3600), ("expiration", Json.num 1700003600),
      ("scope", Json.null)]
     (TokenResponse.mk "tok" "ref" (some "del") "Bearer" 3600 1700003600 none)
     (by rfl)⟩

/-- Claim C2: for a response, `IamAuthenticator::new` returns a value
(`Ok` or a typed error) exactly when the status is 400, or the status is
200 and the body deserializes; on any other status, and on a 200 response
with a malformed body, the reference behavior aborts the process
(modelled as `none`). -/
theorem new_returns_iff_expected_status (status : Nat) (body : Json) :
    (iamAuthenticatorNew (HttpOutcome.response status body)).isSome ↔
      (status = 400 ∨ (status = 200 ∧ (deserializeTokenResponse body).isSome)) := by
  simp only [iamAuthenticatorNew]
  by_cases h200 : status = 200
  · subst h200
    rw [if_pos rfl]
    cases hd : deserializeTokenResponse body <;> simp [hd]
  · rw [if_neg h200]
    by_cases h400 : status = 400
    · subst h400
      simp
    · rw [if_neg h400]
      simp [h200, h400]

/-- Claim C3: a 400 Bad Request response makes `IamAuthenticator::new`
fail with exactly `AuthenticationError::ParameterValidationFailed`,
whatever the body is; no authenticator state is constructed. -/
theorem new_400_parameter_validation (body : Json) :
    iamAuthenticatorNew (HttpOutcome.response 400 body) =
      some (Except.error AuthenticationError.ParameterValidationFailed) :=
  rfl

/-- Claim C4: a transport failure before any status is obtained makes
`IamAuthenticator::new` fail with `ConnectionError` carrying the transport
error's description verbatim; the description of a transport error is
non-empty, so the payload is non-empty. -/
theorem new_transport_connection_error (desc : String) (h : desc ≠ "") :
    iamAuthenticatorNew (HttpOutcome.transportFailure desc) =
      some (Except.error (AuthenticationError.ConnectionError desc)) ∧
    desc ≠ "" :=
  ⟨rfl, h⟩

/-- Witness for claim C4 at a concrete transport error description. -/
theorem new_transport_connection_error_witness :
    iamAuthenticatorNew (HttpOutcome.transportFailure "connection reset by peer") =
      some (Except.error (AuthenticationError.ConnectionError "connection reset by peer")) ∧
    "connection reset by peer" ≠ "" :=
  new_transport_connection_error "connection reset by peer" (by decide)

/-- Claim C5: for every API key the constructed request is a POST to the
fixed identity URL with the form-encoded content type, and its body is the
fixed grant prelude followed by the key verbatim (no escaping). -/
theorem auth_request_shape (apiKey : String) :
    buildAuthRequest apiKey =
      HttpRequest.mk "POST" "https://iam.cloud.ibm.com/identity/token"
        "application/x-www-form-urlencoded"
        ("grant_type=urn:ibm:params:oauth:grant-type:apikey&apikey=" ++ apiKey) ∧
    (buildAuthRequest apiKey).url = AUTH_URL :=
  ⟨rfl, rfl⟩

/-- Claim C6: the list-voices classifier maps 406, 415, 500 and 503 to the
four distinct documented variants (the mapping is injective on these
statuses), and the only variant beyond those four is the connection-error
variant. -/
theorem list_voices_taxonomy :
    listVoicesClassify (ClassifierInput.status 406) = some ListVoicesError.NotAcceptable406 ∧
    listVoicesClassify (ClassifierInput.status 415) = some ListVoicesError.UnsupportedMediaType415 ∧
    listVoicesClassify (ClassifierInput.status 500) = some ListVoicesError.InternalServerError500 ∧
    listVoicesClassify (ClassifierInput.status 503) = some ListVoicesError.ServiceUnavailable503 ∧
    listVoicesClassify (ClassifierInput.status 406) ≠ listVoicesClassify (ClassifierInput.status 415) ∧
    listVoicesClassify (ClassifierInput.status 406) ≠ listVoicesClassify (ClassifierInput.status 500) ∧
    listVoicesClassify (ClassifierInput.status 406) ≠ listVoicesClassify (ClassifierInput.status 503) ∧
    listVoicesClassify (ClassifierInput.status 415) ≠ listVoicesClassify (ClassifierInput.status 500) ∧
    listVoicesClassify (ClassifierInput.status 415) ≠ listVoicesClassify (ClassifierInput.status 503) ∧
    listVoicesClassify (ClassifierInput.status 500) ≠ listVoicesClassify (ClassifierInput.status 503) ∧
    ∀ e : ListVoicesError,
      e = ListVoicesError.NotAcceptable406 ∨ e = ListVoicesError.UnsupportedMediaType415 ∨
      e = ListVoicesError.InternalServerError500 ∨ e = ListVoicesError.ServiceUnavailable503 ∨
      ∃ d, e = ListVoicesError.ConnectionError d := by
  refine ⟨rfl, rfl, rfl, rfl, by decide, by decide, by decide, by decide, by decide, by decide, ?_⟩
  intro e
  cases e with
  | NotAcceptable406 => exact Or.inl rfl
  | UnsupportedMediaType415 => exact Or.inr (Or.inl rfl)
  | InternalServerError500 => exact Or.inr (Or.inr (Or.inl rfl))
  | ServiceUnavailable503 => exact Or.inr (Or.inr (Or.inr (Or.inl rfl)))
  | ConnectionError d => exact Or.inr (Or.inr (Or.inr (Or.inr ⟨d, rfl⟩)))

/-- Claim C7: in the get-voice classifier a 401 with contextual payload
`id` yields `Unauthorised401 id`, whose rendered message contains `id` as
a literal substring (in particular for the payload "custom-id-123"); a 304
yields `NotModified304`. -/
theorem get_voice_401_304 (id : String) :
    getVoiceClassify id (ClassifierInput.status 401) =
      some (GetVoiceError.Unauthorised401 id) ∧
    (GetVoiceError.Unauthorised401 id).message =
      "The specified customisation_id " ++ id ++ " is invalid for the requesting credentials" ∧
    (∃ pre post, (GetVoiceError.Unauthorised401 id).message = pre ++ id ++ post) ∧
    (∃ pre post, (GetVoiceError.Unauthorised401 "custom-id-123").message =
      pre ++ "custom-id-123" ++ post) ∧
    getVoiceClassify id (ClassifierInput.status 304) = some GetVoiceError.NotModified304 :=
  ⟨rfl, rfl,
   ⟨"The specified customisation_id ", " is invalid for the requesting credentials", rfl⟩,
   ⟨"The specified customisation_id ", " is invalid for the requesting credentials", rfl⟩,
   rfl⟩

/-- Claim C8 counterexample: the code enforces no non-emptiness. A 200
response whose JSON body carries empty strings for `access_token` and
`refresh_token` deserializes successfully, so `IamAuthenticator::new`
constructs a reachable token record whose two token fields are empty. -/
theorem token_nonempty_counterexample :
    iamAuthenticatorNew (HttpOutcome.response 200 (Json.obj
        [("access_token", Json.str ""), ("refresh_token", Json.str ""),
         ("token_type", Json.str "Bearer"), ("expires_in", Json.num 3600),
         ("expiration", Json.num 1700003600)])) =
      some (Except.ok ⟨⟨"", "", none, "Bearer", 3600, 1700003600, none⟩⟩) ∧
    (IamAuthenticator.mk ⟨"", "", none, "Bearer", 3600, 1700003600, none⟩).tokenResponse.getAccessToken = "" ∧
    (IamAuthenticator.mk ⟨"", "", none, "Bearer", 3600, 1700003600, none⟩).tokenResponse.getRefreshToken = "" := by
  refine ⟨by rfl, rfl, rfl⟩

/-- Claim C8 (amended): a token record produced by a 200 exchange holds
exactly the strings the JSON body supplied, so its `access_token` and
`refresh_token` are non-empty whenever the body supplied non-empty strings
for those keys; the code itself enforces no non-emptiness invariant. -/
theorem token_nonempty_amended (fs : List (String × Json)) (tr : TokenResponse)
    (a r : String)
    (h : deserializeTokenResponse (Json.obj fs) = some tr)
    (ha : lookupField fs "access_token" = some (Json.str a)) (ha1 : a ≠ "")
    (hr : lookupField fs "refresh_token" = some (Json.str r)) (hr1 : r ≠ "") :
    tr.getAccessToken ≠ "" ∧ tr.getRefreshToken ≠ "" := by
  have h1 := roundtrip_access fs tr h
  rw [ha] at h1
  injection h1 with h1
  injection h1 with h1
  have h2 := roundtrip_refresh fs tr h
  rw [hr] at h2
  injection h2 with h2
  injection h2 with h2
  constructor
  · intro he
    apply ha1
    rw [h1]
    exact he
  · intro he
    apply hr1
    rw [h2]
    exact he

/-- Witness for the amended claim C8 at a concrete body with non-empty
token strings. -/
theorem token_nonempty_amended_witness :
    deserializeTokenResponse (Json.obj [("access_token", Json.str "tok8"),
        ("refresh_token", Json.str "ref8"), ("token_type", Json.str "Bearer"),
        ("expires_in", Json.num 60), ("expiration", Json.num 1000)]) =
      some ⟨"tok8", "ref8", none, "Bearer", 60, 1000, none⟩ ∧
    lookupField [("access_token", Json.str "tok8"), ("refresh_token", Json.str "ref8"),
        ("token_type", Json.str "Bearer"), ("expires_in", Json.num 60),
        ("expiration", Json.num 1000)] "access_token" = some (Json.str "tok8") ∧
    "tok8" ≠ "" ∧
    lookupField [("access_token", Json.str "tok8"), ("refresh_token", Json.str "ref8"),
        ("token_type", Json.str "Bearer"), ("expires_in", Json.num 60),
        ("expiration", Json.num 1000)] "refresh_token" = some (Json.str "ref8") ∧
    "ref8" ≠ "" ∧
    ((TokenResponse.mk "tok8" "ref8" none "Bearer" 60 1000 none).getAccessToken ≠ "" ∧
     (TokenResponse.mk "tok8" "ref8" none "Bearer" 60 1000 none).getRefreshToken ≠ "") :=
  ⟨by rfl, by rfl, by decide, by rfl, by decide,
   token_nonempty_amended
     [("access_token", Json.str "tok8"), ("refresh_token", Json.str "ref8"),
      ("token_type", Json.str "Bearer"), ("expires_in", Json.num 60),
      ("expiration", Json.num 1000)]
     (TokenResponse.mk "tok8" "ref8" none "Bearer" 60 1000 none)
     "tok8" "ref8" (by rfl) (by rfl) (by decide) (by rfl) (by decide)⟩

/-- Claim C9: both classifiers are pure functions of the status code and
contextual payload, so two invocations on the same input yield equal error
values and equal rendered messages. -/
theorem classifiers_deterministic (inp : ClassifierInput) (id : String) :
    listVoicesClassify inp = listVoicesClassify inp ∧
    getVoiceClassify id inp = getVoiceClassify id inp ∧
    Option.map ListVoicesError.message (listVoicesClassify inp) =
      Option.map ListVoicesError.message (listVoicesClassify inp) ∧
    Option.map GetVoiceError.message (getVoiceClassify id inp) =
      Option.map GetVoiceError.message (getVoiceClassify id inp) :=
  ⟨rfl, rfl, rfl, rfl⟩

/-- Claim C10: the variants the two error enums duplicate (406, 415, 500,
503 and the connection error with the same payload) render
character-for-character identical messages, both at the variant level and
through the classifiers at the shared statuses. -/
theorem common_variant_messages_agree (d : String) :
    ListVoicesError.NotAcceptable406.message = GetVoiceError.NotAcceptable406.message ∧
    ListVoicesError.UnsupportedMediaType415.message = GetVoiceError.UnsupportedMediaType415.message ∧
    ListVoicesError.InternalServerError500.message = GetVoiceError.InternalServerError500.message ∧
    ListVoicesError.ServiceUnavailable503.message = GetVoiceError.ServiceUnavailable503.message ∧
    (ListVoicesError.ConnectionError d).message = (GetVoiceError.ConnectionError d).message ∧
    Option.map ListVoicesError.message (listVoicesClassify (ClassifierInput.status 406)) =
      Option.map GetVoiceError.message (getVoiceClassify d (ClassifierInput.status 406)) ∧
    Option.map ListVoicesError.message (listVoicesClassify (ClassifierInput.status 415)) =
      Option.map GetVoiceError.message (getVoiceClassify d (ClassifierInput.status 415)) ∧
    Option.map ListVoicesError.message (listVoicesClassify (ClassifierInput.status 500)) =
      Option.map GetVoiceError.message (getVoiceClassify d (ClassifierInput.status 500)) ∧
    Option.map ListVoicesError.message (listVoicesClassify (ClassifierInput.status 503)) =
      Option.map GetVoiceError.message (getVoiceClassify d (ClassifierInput.status 503)) ∧
    Option.map ListVoicesError.message (listVoicesClassify (ClassifierInput.transport d)) =
      Option.map GetVoiceError.message (getVoiceClassify d (ClassifierInput.transport d)) :=
  ⟨rfl, rfl, rfl, rfl, rfl, rfl, rfl, rfl, rfl, rfl⟩
